import Mathlib

/-!
Verification of the message-routing and tool-invocation core of the
django-chatbot-api repository (`src/chatbot/langchain_nvidia.py`).

Strings are embedded as `List Char` (Python `str`); each helper below models
the Python string primitive the source uses, restricted to the ASCII behaviour
the source exercises.
-/

set_option maxRecDepth 20000

namespace Chatbot

/-- Convert a Lean string literal to the `List Char` representation used
throughout this development. -/
def strL (s : String) : List Char :=
  s.toList

/-- ASCII lower-casing of one character, as Python's `str.lower` acts on the
ASCII range used by the source. -/
def pyLowerChar (c : Char) : Char :=
  if 'A' ≤ c ∧ c ≤ 'Z' then Char.ofNat (c.toNat + 32) else c

/-- ASCII upper-casing of one character, as Python's `str.upper` acts on the
ASCII range. -/
def pyUpperChar (c : Char) : Char :=
  if 'a' ≤ c ∧ c ≤ 'z' then Char.ofNat (c.toNat - 32) else c

/-- Python `str.lower` (ASCII fragment). -/
def pyLower (s : List Char) : List Char :=
  s.map pyLowerChar

/-- Whether a character is an ASCII letter (the "cased" characters relevant
to the source's inputs). -/
def isAsciiAlpha (c : Char) : Bool :=
  ('a' ≤ c && c ≤ 'z') || ('A' ≤ c && c ≤ 'Z')

/-- Python whitespace (the ASCII characters matched by `str.split`,
`str.strip` and the regex class `\s`). -/
def isPySpace (c : Char) : Bool :=
  c = ' ' || c = '\t' || c = '\n' || c = '\x0d' || c = Char.ofNat 11 || c = Char.ofNat 12

/-- Python `str.strip()`: drop leading and trailing whitespace. -/
def pyStrip (s : List Char) : List Char :=
  ((s.dropWhile isPySpace).reverse.dropWhile isPySpace).reverse

/-- Accumulator pass of `str.split()` (split on whitespace runs, discarding
empty pieces). -/
def pySplitAux : List Char → List Char → List (List Char)
  | [], acc => if acc.isEmpty then [] else [acc.reverse]
  | c :: cs, acc =>
    if isPySpace c then
      if acc.isEmpty then pySplitAux cs [] else acc.reverse :: pySplitAux cs []
    else
      pySplitAux cs (c :: acc)

/-- Python `str.split()` with no arguments. -/
def pySplit (s : List Char) : List (List Char) :=
  pySplitAux s []

/-- Pass of Python `str.title`: a letter is upper-cased when the previous
character is not a letter, lower-cased otherwise. -/
def pyTitleAux : Bool → List Char → List Char
  | _, [] => []
  | prevAlpha, c :: cs =>
    (if isAsciiAlpha c then
      (if prevAlpha then pyLowerChar c else pyUpperChar c)
     else c) :: pyTitleAux (isAsciiAlpha c) cs

/-- Python `str.title()` (ASCII fragment). -/
def pyTitle (s : List Char) : List Char :=
  pyTitleAux false s

/-- Python `str.capitalize()`: first character upper-cased, all remaining
characters lower-cased. -/
def pyCapitalize : List Char → List Char
  | [] => []
  | c :: cs => pyUpperChar c :: pyLower cs

/-- Python's substring test `needle in hay`. -/
def isSubstring (needle : List Char) : List Char → Bool
  | [] => needle.isEmpty
  | c :: t => needle.isPrefixOf (c :: t) || isSubstring needle t

/-- Python `dict.get key default` on a JSON-object association list, where a
repeated key keeps the last binding (as `json.loads` does). -/
def dictGet : List (List Char × List Char) → List Char → Option (List Char)
  | [], _ => none
  | (k, v) :: rest, key =>
    match dictGet rest key with
    | some r => some r
    | none => if k = key then some v else none

/-- Decimal rendering of a number, as a Python f-string renders an `int`
status code. -/
def natStr (n : Nat) : List Char :=
  (Nat.repr n).toList

/-!
Data model of the external collaborators, at the interface the source code
observes: every Python expression that either yields a value or raises is
embedded as a `PyResult`; the raised exception is carried as its `str(e)`
textual detail.
-/

/-- Outcome of a Python expression: a value, or a raised exception carried as
its textual detail `str(e)`. -/
inductive PyResult (α : Type) : Type
  | ok (val : α)
  | exn (detail : List Char)
deriving DecidableEq

/-- The `function` field of a tool call in the model's response
(`tool_call.function`); `arguments` is a raw JSON string in the SDK, to which
the source applies `json.loads` (line 218) expecting an object of strings, so
it is embedded as the outcome of that parse. -/
structure ToolFunction : Type where
  name : List Char
  arguments : PyResult (List (List Char × List Char))
deriving DecidableEq

/-- One tool call of the model's response (`message.tool_calls[i]`). -/
structure ToolCall : Type where
  id : List Char
  function : ToolFunction
deriving DecidableEq

/-- The message of a chat completion response (`response.choices[0].message`):
`content` is `Optional[str]` in the SDK, and `tool_calls` is `Optional[list]`
whose `None` and `[]` values are indistinguishable under the source's
truthiness test `if message.tool_calls:`, so both are embedded as `[]`. -/
structure ChatMsg : Type where
  content : Option (List Char)
  tool_calls : List ToolCall
deriving DecidableEq

/-- One entry of the message list passed to a completion call (lines 201-204
and 228-237 of the source). -/
inductive PyMessage : Type
  | system (content : List Char)
  | user (content : List Char)
  | assistantToolCalls (tcs : List ToolCall)
  | tool (tool_call_id : List Char) (content : List Char)
deriving DecidableEq

/-- One network request issued by the core, recorded in order: stateful
network effects are embedded as an explicit trace returned next to the value.
-/
inductive NetCall : Type
  | weatherByName (city : List Char)
  | geocode (city : List Char)
  | weatherByCoord (lat lon : List Char)
  | completion1 (msgs : List PyMessage)
  | completion2 (msgs : List PyMessage)
deriving DecidableEq

/-!
WeatherClient and GeocodingClient (`get_weather`, `get_coordinates`,
lines 16-124 of `langchain_nvidia.py`).

The upstream JSON body is embedded flat as the five fields the source reads
(`main.temp`, `main.feels_like`, `main.humidity`, `weather[0].description`,
`wind.speed`), each an `Option` of its rendered textual value; a missing field
makes the corresponding subscript raise a `KeyError` whose detail is the
quoted field name.  Configuration keys are `Option`: `none` embeds an
undefined key, on which python-decouple's `config(name)` raises
`UndefinedValueError` with the message modelled by `decoupleMissing`.
-/

/-- The five fields of a 200 weather response body that the source reads. -/
structure WeatherFields : Type where
  temp : Option (List Char)
  feels_like : Option (List Char)
  humidity : Option (List Char)
  description : Option (List Char)
  wind_speed : Option (List Char)
deriving DecidableEq

/-- Behaviour of one `requests.get` against the weather endpoint: an HTTP 200
with a parsed body, a 404, another status code, or a raised
`Timeout` / `RequestException` / other exception with its detail. -/
inductive WResp : Type
  | ok (body : WeatherFields)
  | notFound
  | otherStatus (code : Nat)
  | timeoutExn
  | reqExn (detail : List Char)
  | otherExn (detail : List Char)
deriving DecidableEq

/-- One element of the geocoding endpoint's JSON array: `lat` and `lon` raise
a `KeyError` when absent, `name` is read with `.get('name', city_name)`. -/
structure GeoEntry : Type where
  lat : Option (List Char)
  lon : Option (List Char)
  name : Option (List Char)
deriving DecidableEq

/-- Behaviour of the `requests.get` against the geocoding endpoint: a 200 with
a parsed array, another status, or any raised exception (swallowed by
`get_coordinates`). -/
inductive GResp : Type
  | ok (entries : List GeoEntry)
  | otherStatus (code : Nat)
  | exn
deriving DecidableEq

/-- The value returned by `get_coordinates` on success. -/
structure GeoCoord : Type where
  lat : List Char
  lon : List Char
  name : List Char
deriving DecidableEq

/-- Environment of one `get_weather` invocation: the configured weather key
and the behaviour of the (at most three) upstream requests it can issue. -/
structure WeatherEnv : Type where
  weatherKey : Option (List Char)
  byName : WResp
  geo : GResp
  byCoord : WResp

/-- Message of python-decouple's `UndefinedValueError` for an undefined
configuration key `name`. -/
def decoupleMissing (name : List Char) : List Char :=
  name ++ strL " not found. Declare it as envvar or define a default value."

/-- Ordered extraction of the five fields exactly as lines 37-41 subscript the
body; the first missing field raises a `KeyError` whose `str` is the quoted
key. -/
def fieldsOf (b : WeatherFields) :
    PyResult (List Char × List Char × List Char × List Char × List Char) :=
  match b.temp with
  | none => .exn (strL "'temp'")
  | some t =>
    match b.feels_like with
    | none => .exn (strL "'feels_like'")
    | some f =>
      match b.humidity with
      | none => .exn (strL "'humidity'")
      | some h =>
        match b.description with
        | none => .exn (strL "'description'")
        | some d =>
          match b.wind_speed with
          | none => .exn (strL "'wind_speed'")
          | some w => .ok (t, f, h, d, w)

/-- The weather summary between the f-string's surrounding whitespace
(lines 43-49): what `weather_info.strip()` returns. -/
def weatherBody (city t f h cond w : List Char) : List Char :=
  (strL "Weather in " ++ city ++
   strL ":\n- Temperature: " ++ t ++
   strL "°C (Feels like: " ++ f ++
   strL "°C)\n- Condition: " ++ cond ++
   strL "\n- Humidity: " ++ h ++
   strL "%\n- Wind Speed: " ++ w) ++ strL " m/s"

/-- The raw f-string of lines 43-49 / 75-81: a leading newline, the body, and
a trailing newline with the closing quote's indentation (12 spaces in the
by-name branch, 20 in the by-coordinates branch). -/
def formatWeatherRaw (indent : Nat) (city t f h cond w : List Char) : List Char :=
  '\n' :: (weatherBody city t f h cond w ++ '\n' :: List.replicate indent ' ')

/-- Formatting of a parsed 200 body for a displayed city (lines 35-51 and
68-82): extract the five fields, apply `capitalize` to the condition, fill the
f-string and `strip` it; a missing field raises into the enclosing generic
handler of line 93. -/
def weatherFromBody (city : List Char) (indent : Nat) (b : WeatherFields) : List Char :=
  match fieldsOf b with
  | .ok (t, f, h, d, w) => pyStrip (formatWeatherRaw indent city t f h (pyCapitalize d) w)
  | .exn e => strL "Error getting weather: " ++ e

/-- The not-found message of line 84. -/
def cityNotFoundMsg (city : List Char) : List Char :=
  strL "City '" ++ city ++ strL "' not found. Please check the spelling or try a nearby major city."

/-- Embedding of `get_coordinates` (lines 101-124): on a 200 with a non-empty
array take the first entry's `lat`, `lon` and `name` (defaulting the name to
the queried city); any exception, missing coordinate key, other status or
empty array yields `None`. -/
def get_coordinates (env : WeatherEnv) (city : List Char) : Option GeoCoord :=
  match env.weatherKey with
  | none => none
  | some _ =>
    match env.geo with
    | .ok (e :: _) =>
      match e.lat, e.lon with
      | some la, some lo => some ⟨la, lo, e.name.getD city⟩
      | _, _ => none
    | .ok [] => none
    | .otherStatus _ => none
    | .exn => none

/-- Embedding of `get_weather` (lines 16-94) with its network trace: the
returned user-facing string paired with the requests issued, in order. -/
def get_weatherT (env : WeatherEnv) (city : List Char) : List Char × List NetCall :=
  match env.weatherKey with
  | none => (strL "Error getting weather: " ++ decoupleMissing (strL "WEATHER_API_KEY"), [])
  | some key =>
    if key.isEmpty then
      (strL "Weather API key not found. Please add WEATHER_API_KEY to .env file", [])
    else
      match env.byName with
      | .ok body => (weatherFromBody city 12 body, [.weatherByName city])
      | .notFound =>
        match get_coordinates env city with
        | some coord =>
          let t1 : List NetCall :=
            [.weatherByName city, .geocode city, .weatherByCoord coord.lat coord.lon]
          match env.byCoord with
          | .ok body => (weatherFromBody coord.name 20 body, t1)
          | .notFound => (cityNotFoundMsg city, t1)
          | .otherStatus _ => (cityNotFoundMsg city, t1)
          | .timeoutExn => (strL "Weather API request timed out. Please try again.", t1)
          | .reqExn d => (strL "Error connecting to Weather API: " ++ d, t1)
          | .otherExn d => (strL "Error getting weather: " ++ d, t1)
        | none => (cityNotFoundMsg city, [.weatherByName city, .geocode city])
      | .otherStatus code =>
        (strL "Could not fetch weather data. Error code: " ++ natStr code, [.weatherByName city])
      | .timeoutExn =>
        (strL "Weather API request timed out. Please try again.", [.weatherByName city])
      | .reqExn d =>
        (strL "Error connecting to Weather API: " ++ d, [.weatherByName city])
      | .otherExn d =>
        (strL "Error getting weather: " ++ d, [.weatherByName city])

/-- The string `get_weather` returns. -/
def get_weather (env : WeatherEnv) (city : List Char) : List Char :=
  (get_weatherT env city).1

/-!
CityExtractor and the keyword-heuristic IntentRouter (`extract_city_name`,
lines 406-444, and the heuristic `get_nvidia_response`, lines 497-589).

The source's regex patterns have exactly two shapes: a literal followed by a
capture group `([A-Za-z\s]+)`, and a literal, `.*`, a second literal and that
capture group.  `re.search` is embedded with Python's semantics on these
shapes: leftmost start position wins; at a position, `.*` is greedy over
non-newline characters with backtracking, and the capture group greedily takes
a non-empty run of letters and whitespace.
-/

/-- The keyword list of lines 518-527. -/
def weather_keywords : List (List Char) :=
  [strL "weather", strL "temperature", strL "forecast", strL "climate",
   strL "rain", strL "raining", strL "rainy", strL "rainfall",
   strL "humidity", strL "humid",
   strL "hot", strL "cold", strL "warm", strL "cool",
   strL "sunny", strL "cloudy", strL "cloud", strL "clouds",
   strL "wind", strL "windy",
   strL "storm", strL "stormy",
   strL "snow", strL "snowing", strL "snowy"]

/-- The weather classification of line 530: any keyword occurs as a substring
of the lower-cased message. -/
def is_weather_question (msg : List Char) : Bool :=
  weather_keywords.any fun k => isSubstring k (pyLower msg)

/-- The two shapes of the source's regex patterns (lines 416-427): `plain lit`
embeds `lit([A-Za-z\s]+)` and `gap pre post` embeds `pre.*post([A-Za-z\s]+)`.
-/
inductive Pat : Type
  | plain (lit : List Char)
  | gap (pre post : List Char)
deriving DecidableEq

/-- The ordered pattern list of lines 416-427. -/
def patterns : List Pat :=
  [.plain (strL "weather in "),
   .plain (strL "temperature in "),
   .plain (strL "humidity in "),
   .gap (strL "rain") (strL "in "),
   .gap (strL "hot") (strL "in "),
   .gap (strL "cold") (strL "in "),
   .plain (strL "forecast for "),
   .plain (strL "climate in "),
   .plain (strL "weather of "),
   .plain (strL "temperature of ")]

/-- A character of the class `[A-Za-z\s]`. -/
def isCityChar (c : Char) : Bool :=
  isAsciiAlpha c || isPySpace c

/-- The greedy non-empty capture of `([A-Za-z\s]+)` at a position. -/
def capRun (s : List Char) : Option (List Char) :=
  let r := s.takeWhile isCityChar
  if r.isEmpty then none else some r

/-- Match attempt of `lit([A-Za-z\s]+)` anchored at the start of `s`. -/
def matchPlain (lit s : List Char) : Option (List Char) :=
  if lit.isPrefixOf s then capRun (s.drop lit.length) else none

/-- Backtracking over the lengths `.*` may consume, largest first: the first
`k` at which the second literal and a non-empty capture both fit wins. -/
def gapTryKs (post rest : List Char) : List Nat → Option (List Char)
  | [] => none
  | k :: ks =>
    if post.isPrefixOf (rest.drop k) then
      match capRun (rest.drop (k + post.length)) with
      | some r => some r
      | none => gapTryKs post rest ks
    else gapTryKs post rest ks

/-- Match attempt of `pre.*post([A-Za-z\s]+)` anchored at the start of `s`:
`.*` greedily spans non-newline characters and backtracks. -/
def matchGap (pre post s : List Char) : Option (List Char) :=
  if pre.isPrefixOf s then
    let rest := s.drop pre.length
    let maxK := (rest.takeWhile (fun c => c ≠ '\n')).length
    gapTryKs post rest ((List.range (maxK + 1)).reverse)
  else none

/-- The position scan of `re.search`: try the anchored match at every start
position from the left; the first success wins. -/
def reSearch (f : List Char → Option (List Char)) : List Char → Option (List Char)
  | [] => f []
  | c :: t =>
    match f (c :: t) with
    | some r => some r
    | none => reSearch f t

/-- `re.search` of one source pattern, yielding the capture group. -/
def searchPat : Pat → List Char → Option (List Char)
  | .plain lit, s => reSearch (matchPlain lit) s
  | .gap pre post, s => reSearch (matchGap pre post) s

/-- The pattern loop of lines 431-436: first matching pattern wins. -/
def firstPatternCapture : List Pat → List Char → Option (List Char)
  | [], _ => none
  | p :: ps, s =>
    match searchPat p s with
    | some c => some c
    | none => firstPatternCapture ps s

/-- Embedding of `extract_city_name` (lines 406-444): the first pattern match
against the lower-cased message, stripped and title-cased; otherwise the last
whitespace-delimited token of the original message, title-cased, when it has
at least two tokens. -/
def extract_city_name (msg : List Char) : Option (List Char) :=
  match firstPatternCapture patterns (pyLower msg) with
  | some city => some (pyTitle (pyStrip city))
  | none =>
    let words := pySplit msg
    if 2 ≤ words.length then words.getLast?.map pyTitle else none

/-!
The heuristic router itself and the shared error classifier of the `except`
branch (lines 248-260 and 572-589, textually identical in both variants).
-/

/-- Embedding of the `except` branch (lines 248-260): substring
classification of the exception's textual detail; all checks but `"429"` are
against the lower-cased detail, and the fallback keeps the first 150
characters of the raw detail. -/
def classifyError (e : List Char) : List Char :=
  let m := pyLower e
  if isSubstring (strL "401") m || isSubstring (strL "unauthorized") m then
    strL "❌ API Key Error: Your NVIDIA API key is invalid."
  else if isSubstring (strL "404") m || isSubstring (strL "not found") m then
    strL "❌ Model not found. Please check the model name."
  else if isSubstring (strL "rate limit") m || isSubstring (strL "429") e then
    strL "❌ Too many requests! Please wait 30 seconds and try again."
  else if isSubstring (strL "timeout") m then
    strL "❌ Request timed out. Please try a shorter message."
  else
    strL "❌ Error: " ++ e.take 150 ++ strL ". Please check your API key and internet connection."

/-- The routing decision of the heuristic variant (lines 528-543): weather
branch with or without an extracted city, or the chat branch. -/
inductive Route : Type
  | weatherCity (city : List Char)
  | weatherNoCity
  | chat
deriving DecidableEq

/-- Steps 1-2 of the heuristic `get_nvidia_response`: classify, then extract. -/
def heuristicRoute (msg : List Char) : Route :=
  if is_weather_question msg then
    match extract_city_name msg with
    | some city => .weatherCity city
    | none => .weatherNoCity
  else .chat

/-- Environment of the heuristic variant: the NVIDIA key is read with
`config('NVIDIA_API_KEY', default='')` (line 508), so an absent key is the
empty string; `chatResp` is the chat branch's LLM call, already projected to
the final text the branch returns (lines 564-570). -/
structure HeuristicEnv : Type where
  nvidiaKey : List Char
  weather : WeatherEnv
  chatResp : PyResult (List Char)

/-- Embedding of the heuristic `get_nvidia_response` (lines 497-589). -/
def get_nvidia_response_heuristic (env : HeuristicEnv) (msg : List Char) : List Char :=
  if env.nvidiaKey.isEmpty then
    strL "⚠️ NVIDIA API key not found. Please add NVIDIA_API_KEY to .env file!"
  else
    match heuristicRoute msg with
    | .weatherCity city => get_weather env.weather city
    | .weatherNoCity => strL "Please specify a city name. For example: 'weather in London'"
    | .chat =>
      match env.chatResp with
      | .ok c => c
      | .exn e => classifyError e

/-!
The active native function-calling `get_nvidia_response` (lines 131-260).
-/

/-- The system prompt literal of lines 173-196. -/
def systemPromptText : List Char :=
  strL "You are a friendly AI assistant who can chat and provide weather information.\n\nCRITICAL FUNCTION CALLING RULES:\n1. ONLY call get_weather function when BOTH conditions are met:\n   - User message has weather words: weather, temperature, rain, hot, cold, humidity, forecast\n   - User message has a city name\n\n2. NEVER call get_weather for:\n   - Greetings: \"hi\", \"hello\", \"good morning\", \"hey\"\n   - General questions: \"how are you\", \"what can you do\"\n   - Chat without weather words or city names\n\n3. Response guidelines:\n   - Greetings → Respond warmly without mentioning weather\n   - Weather + City → Call get_weather function\n   - Other questions → Answer naturally\n\nEXAMPLES:\n❌ \"Hello\" → DO NOT call function → Say \"Hello! How can I help you today?\"\n❌ \"Good morning\" → DO NOT call function → Say \"Good morning! What would you like to know?\"\n✅ \"Weather in London\" → CALL get_weather(\"London\")\n✅ \"Is it raining in Paris?\" → CALL get_weather(\"Paris\")\n❌ \"How are you?\" → DO NOT call function → Say \"I'm doing well, thanks!\"\n"

/-- Environment of the active `get_nvidia_response`: the NVIDIA key is read
with `config('NVIDIA_API_KEY')` and no default (line 142), so `none` embeds
an undefined key on which decouple raises; `firstResp` is the behaviour of the
first completion call, `secondResp` that of the second as a function of the
message list it is given (its `Option` result is the returned message's
`Optional[str]` content). -/
structure NvidiaEnv : Type where
  nvidiaKey : Option (List Char)
  firstResp : PyResult ChatMsg
  weather : WeatherEnv
  secondResp : List PyMessage → PyResult (Option (List Char))

/-- The message list of the first completion call (lines 201-204). -/
def firstCallMsgs (msg : List Char) : List PyMessage :=
  [.system systemPromptText, .user msg]

/-- The message list of the second completion call (lines 228-237): system
prompt, user message, the assistant turn carrying only the first tool call,
and the tool turn carrying the weather result verbatim. -/
def secondCallMsgs (msg : List Char) (tc : ToolCall) (weather_data : List Char) :
    List PyMessage :=
  [.system systemPromptText, .user msg, .assistantToolCalls [tc],
   .tool tc.id weather_data]

/-- Embedding of the active `get_nvidia_response` (lines 131-260) with its
network trace: the returned value (the SDK's `Optional[str]` content, hence an
`Option`) paired with the requests issued, in order.  Every exception a
collaborator raises inside the `try` block lands in `classifyError`. -/
def get_nvidia_responseT (env : NvidiaEnv) (msg : List Char) :
    Option (List Char) × List NetCall :=
  match env.nvidiaKey with
  | none => (some (classifyError (decoupleMissing (strL "NVIDIA_API_KEY"))), [])
  | some key =>
    if key.isEmpty then
      (some (strL "⚠️ NVIDIA API key not found. Please add NVIDIA_API_KEY to .env file!"), [])
    else
      let t1 : List NetCall := [.completion1 (firstCallMsgs msg)]
      match env.firstResp with
      | .exn e => (some (classifyError e), t1)
      | .ok message =>
        match message.tool_calls with
        | [] => (message.content, t1)
        | tool_call :: _ =>
          match tool_call.function.arguments with
          | .exn e => (some (classifyError e), t1)
          | .ok function_args =>
            if tool_call.function.name = strL "get_weather" then
              let location := (dictGet function_args (strL "location")).getD []
              let wres := get_weatherT env.weather location
              let msgs2 := secondCallMsgs msg tool_call wres.1
              match env.secondResp msgs2 with
              | .exn e => (some (classifyError e), t1 ++ wres.2 ++ [.completion2 msgs2])
              | .ok content => (content, t1 ++ wres.2 ++ [.completion2 msgs2])
            else
              (message.content, t1)

/-- The value the active `get_nvidia_response` returns. -/
def get_nvidia_response (env : NvidiaEnv) (msg : List Char) : Option (List Char) :=
  (get_nvidia_responseT env msg).1

/-!
Predicates classifying `get_weather`'s possible return strings, and the
concrete environments used to instantiate the theorems below.
-/

/-- The string is a fully populated report: it was formatted from a 200
response carrying all five fields, either by name (displaying the queried
city) or after the geocoding fallback (displaying the geocoded name). -/
def isWeatherReport (env : WeatherEnv) (city s : List Char) : Prop :=
  (∃ t f h d w, env.byName = WResp.ok ⟨some t, some f, some h, some d, some w⟩ ∧
     s = weatherBody city t f h (pyCapitalize d) w) ∨
  (∃ coord t f h d w, env.byName = WResp.notFound ∧
     get_coordinates env city = some coord ∧
     env.byCoord = WResp.ok ⟨some t, some f, some h, some d, some w⟩ ∧
     s = weatherBody coord.name t f h (pyCapitalize d) w)

/-- The string is one of `get_weather`'s failure messages (lines 23, 84,
87, 90, 92, 94 of the source, plus the configuration error surfaced through
the generic handler). -/
def isWeatherFailureMsg (city s : List Char) : Prop :=
  s = strL "Error getting weather: " ++ decoupleMissing (strL "WEATHER_API_KEY") ∨
  s = strL "Weather API key not found. Please add WEATHER_API_KEY to .env file" ∨
  (∃ e, s = strL "Error getting weather: " ++ e) ∨
  s = strL "Weather API request timed out. Please try again." ∨
  (∃ d, s = strL "Error connecting to Weather API: " ++ d) ∨
  (∃ code, s = strL "Could not fetch weather data. Error code: " ++ natStr code) ∨
  s = cityNotFoundMsg city

/-- A weather environment with no reachable report, used where the weather
collaborator is irrelevant. -/
def weatherEnvStub : WeatherEnv :=
  ⟨some (strL "k"), WResp.notFound, GResp.exn, WResp.notFound⟩

/-- Environment whose direct lookup 404s, whose geocoding resolves, and whose
coordinate lookup returns a full 200 body. -/
def envC3 : WeatherEnv :=
  ⟨some (strL "k"), WResp.notFound,
   GResp.ok [⟨some (strL "10.1"), some (strL "76.4"), some (strL "Pulluvazhy")⟩],
   WResp.ok ⟨some (strL "25"), some (strL "26"), some (strL "60"),
     some (strL "light rain"), some (strL "3")⟩⟩

/-- A first-response tool call requesting `get_weather` for Paris. -/
def tcW : ToolCall :=
  ⟨strL "call_1", ⟨strL "get_weather", PyResult.ok [(strL "location", strL "Paris")]⟩⟩

/-- Environment whose first completion response requests the weather tool. -/
def envC4 : NvidiaEnv :=
  ⟨some (strL "k"), PyResult.ok ⟨none, [tcW]⟩, weatherEnvStub,
   fun _ => PyResult.ok (some (strL "ok"))⟩

/-- A first-response tool call for a tool other than `get_weather`, with
arguments that parse. -/
def tcOther : ToolCall :=
  ⟨strL "call_2", ⟨strL "get_time", PyResult.ok []⟩⟩

/-- Environment whose first response carries a non-weather tool call and a
`None` message content. -/
def envC6 : NvidiaEnv :=
  ⟨some (strL "k"), PyResult.ok ⟨none, [tcOther]⟩, weatherEnvStub,
   fun _ => PyResult.ok (some [])⟩

/-- Environment whose first completion call raises an unclassified error with
an 800-character detail. -/
def envC7 : NvidiaEnv :=
  ⟨some (strL "k"), PyResult.exn (List.replicate 800 'a'), weatherEnvStub,
   fun _ => PyResult.ok (some [])⟩

/-- Environment with the NVIDIA credential absent from configuration. -/
def envC8 : NvidiaEnv :=
  ⟨none, PyResult.ok ⟨some (strL "hi"), []⟩, weatherEnvStub,
   fun _ => PyResult.ok (some [])⟩

/-- Environment whose direct lookup returns a 200 body whose condition text
is the lower-case "light rain". -/
def envC9 : WeatherEnv :=
  ⟨some (strL "k"),
   WResp.ok ⟨some (strL "25"), some (strL "26"), some (strL "60"),
     some (strL "light rain"), some (strL "3")⟩,
   GResp.exn, WResp.notFound⟩

/-- A non-weather tool call whose arguments string is not valid JSON, so
`json.loads` raises before the name comparison. -/
def tcBadArgs : ToolCall :=
  ⟨strL "call_3", ⟨strL "get_time", PyResult.exn (strL "Expecting value: line 1 column 1 (char 0)")⟩⟩

/-- Environment whose first response carries `tcBadArgs` next to a present
string content. -/
def envC10 : NvidiaEnv :=
  ⟨some (strL "k"), PyResult.ok ⟨some (strL "direct answer"), [tcBadArgs]⟩, weatherEnvStub,
   fun _ => PyResult.ok (some [])⟩

/-- A second tool call that would request the weather if it were examined. -/
def tcExtra : ToolCall :=
  ⟨strL "call_5", ⟨strL "get_weather", PyResult.ok []⟩⟩

/-- Environment whose first response carries two tool calls, the first of
them not `get_weather`. -/
def envC10b : NvidiaEnv :=
  ⟨some (strL "k"), PyResult.ok ⟨some (strL "sure"), [tcOther, tcExtra]⟩, weatherEnvStub,
   fun _ => PyResult.ok (some [])⟩

/-!
Support lemmas about the weather formatting.
-/

/-- Leading space padding is transparent to `dropWhile isPySpace`. -/
lemma dropWhile_replicate_space (i : Nat) (l : List Char) :
    List.dropWhile isPySpace (List.replicate i ' ' ++ l) = List.dropWhile isPySpace l := by
  induction i with
  | zero => rfl
  | succ n ih => simpa [List.replicate_succ, List.dropWhile_cons] using ih

/-- Stripping the f-string's surrounding whitespace leaves exactly the body
when the body starts and ends with non-whitespace characters. -/
lemma pyStrip_sandwich (B : List Char) (x y : Char) (tb te : List Char) (i : Nat)
    (hB : B = x :: tb) (hBr : B.reverse = y :: te)
    (hx : isPySpace x = false) (hy : isPySpace y = false) :
    pyStrip ('\n' :: (B ++ '\n' :: List.replicate i ' ')) = B := by
  unfold pyStrip
  rw [show List.dropWhile isPySpace ('\n' :: (B ++ '\n' :: List.replicate i ' '))
        = B ++ '\n' :: List.replicate i ' ' by
    rw [List.dropWhile_cons]
    simp only [show isPySpace '\n' = true from rfl, if_true]
    rw [hB, List.cons_append, List.dropWhile_cons]
    simp only [hx, Bool.false_eq_true, if_false]]
  rw [List.reverse_append, List.reverse_cons, List.reverse_replicate,
    List.append_assoc, dropWhile_replicate_space]
  rw [show List.dropWhile isPySpace (['\n'] ++ B.reverse) = B.reverse by
    rw [List.singleton_append, List.dropWhile_cons]
    simp only [show isPySpace '\n' = true from rfl, if_true]
    rw [hBr, List.dropWhile_cons]
    simp only [hy, Bool.false_eq_true, if_false]]
  exact List.reverse_reverse B

/-- `weather_info.strip()` of the filled f-string is the summary body, for
either branch's indentation. -/
lemma pyStrip_weather_raw (i : Nat) (c t f h d w : List Char) :
    pyStrip (formatWeatherRaw i c t f h d w) = weatherBody c t f h d w := by
  have hhead : ∃ tl, weatherBody c t f h d w = 'W' :: tl := ⟨_, rfl⟩
  have hrev : ∃ tl, (weatherBody c t f h d w).reverse = 's' :: tl := by
    unfold weatherBody
    rw [List.reverse_append]
    exact ⟨_, rfl⟩
  obtain ⟨tb, hB⟩ := hhead
  obtain ⟨te, hBr⟩ := hrev
  exact pyStrip_sandwich _ 'W' 's' tb te i hB hBr rfl rfl

/-- Field extraction succeeds exactly on a fully populated body, and returns
its five fields. -/
lemma fieldsOf_ok_iff (b : WeatherFields) (t f h d w : List Char) :
    fieldsOf b = PyResult.ok (t, f, h, d, w) ↔
      b = ⟨some t, some f, some h, some d, some w⟩ := by
  obtain ⟨t?, f?, h?, d?, w?⟩ := b
  cases t? <;> cases f? <;> cases h? <;> cases d? <;> cases w? <;>
    simp [fieldsOf, and_assoc, eq_comm]

/-!
The claims.
-/

/-- C1: the keyword-heuristic IntentRouter classifies a message as
weather-related exactly when the lower-cased message contains one of the 25
fixed keywords as a substring; "hi there" is routed to the chat branch, and
"is it raining in Paris" to the weather branch with the extractor yielding
"Paris". -/
theorem C1_keyword_router :
    (∀ msg : List Char,
       is_weather_question msg = true ↔
         ∃ k ∈ weather_keywords, isSubstring k (pyLower msg) = true)
    ∧ heuristicRoute (strL "hi there") = Route.chat
    ∧ heuristicRoute (strL "is it raining in Paris") = Route.weatherCity (strL "Paris") := by
  refine ⟨fun msg => ?_, by decide, by decide⟩
  simp [is_weather_question, List.any_eq_true]

/-- C2: `extract_city_name` returns the first pattern match's capture, trimmed
and title-cased; with no pattern match it returns the title-cased final token
when the message has at least two whitespace-delimited tokens and nothing
otherwise; and it maps "weather in London" to "London", "What's the
temperature in New York?" to "New York", "weather" to nothing, and
"check Paris" to "Paris". -/
theorem C2_extract_city :
    (∀ msg cap : List Char,
       firstPatternCapture patterns (pyLower msg) = some cap →
         extract_city_name msg = some (pyTitle (pyStrip cap)))
    ∧ (∀ msg : List Char,
       firstPatternCapture patterns (pyLower msg) = none →
         extract_city_name msg =
           if 2 ≤ (pySplit msg).length then (pySplit msg).getLast?.map pyTitle else none)
    ∧ extract_city_name (strL "weather in London") = some (strL "London")
    ∧ extract_city_name (strL "What's the temperature in New York?") = some (strL "New York")
    ∧ extract_city_name (strL "weather") = none
    ∧ extract_city_name (strL "check Paris") = some (strL "Paris") := by
  refine ⟨fun msg cap hm => ?_, fun msg hm => ?_, by decide, by decide, by decide, by decide⟩
  · simp [extract_city_name, hm]
  · simp [extract_city_name, hm]

/-- C3: when the direct lookup returns 404, geocoding resolves a coordinate,
and the coordinate lookup returns an interface-conformant 200 (a body carrying
the five fields of the external interface contract), `get_weather` returns the
report formatted for the geocoded resolved name, not the supplied city name.
-/
theorem C3_geocoded_city (env : WeatherEnv) (city key : List Char) (coord : GeoCoord)
    (t f h d w : List Char)
    (hkey : env.weatherKey = some key) (hne : key.isEmpty = false)
    (hname : env.byName = WResp.notFound)
    (hgeo : get_coordinates env city = some coord)
    (hcoord : env.byCoord = WResp.ok ⟨some t, some f, some h, some d, some w⟩) :
    get_weather env city = weatherBody coord.name t f h (pyCapitalize d) w := by
  unfold get_weather get_weatherT
  rw [hkey, hname, hgeo, hcoord]
  simp [hne, weatherFromBody, fieldsOf, pyStrip_weather_raw]

/-- Witness for C3 at a concrete environment: the displayed city is the
geocoded "Pulluvazhy", not the queried "pulluvazhy". -/
theorem C3_geocoded_city_witness :
    get_weather envC3 (strL "pulluvazhy") =
      weatherBody (strL "Pulluvazhy") (strL "25") (strL "26") (strL "60")
        (pyCapitalize (strL "light rain")) (strL "3") :=
  C3_geocoded_city envC3 (strL "pulluvazhy") (strL "k")
    ⟨strL "10.1", strL "76.4", strL "Pulluvazhy"⟩ (strL "25") (strL "26") (strL "60")
    (strL "light rain") (strL "3") rfl rfl rfl (by decide) rfl

/-- C4: whenever the first response requests the `get_weather` tool (and a
second completion call is therefore issued), the second call's message list
carries, as the tool-role message content, the exact string the weather fetch
returned for the requested location. -/
theorem C4_tool_roundtrip (env : NvidiaEnv) (msg key : List Char) (m : ChatMsg)
    (tc : ToolCall) (rest : List ToolCall) (args : List (List Char × List Char))
    (hkey : env.nvidiaKey = some key) (hne : key.isEmpty = false)
    (hresp : env.firstResp = PyResult.ok m)
    (htc : m.tool_calls = tc :: rest)
    (hargs : tc.function.arguments = PyResult.ok args)
    (hname : tc.function.name = strL "get_weather") :
    ∃ msgs2,
      NetCall.completion2 msgs2 ∈ (get_nvidia_responseT env msg).2 ∧
      msgs2 = secondCallMsgs msg tc
        (get_weather env.weather ((dictGet args (strL "location")).getD [])) ∧
      PyMessage.tool tc.id
        (get_weather env.weather ((dictGet args (strL "location")).getD [])) ∈ msgs2 := by
  refine ⟨secondCallMsgs msg tc
    (get_weather env.weather ((dictGet args (strL "location")).getD [])), ?_, rfl,
    by simp [secondCallMsgs]⟩
  simp only [get_nvidia_responseT, hkey, hresp, htc, hargs, hne, hname, get_weather,
    Bool.false_eq_true, if_false, if_true, ite_true, ite_false, reduceIte]
  cases h2 : env.secondResp (secondCallMsgs msg tc
      ((get_weatherT env.weather ((dictGet args (strL "location")).getD [])).1)) with
  | ok content => simp [h2]
  | exn e => simp [h2]

/-- Witness for C4 at a concrete environment requesting the weather for
Paris. -/
theorem C4_tool_roundtrip_witness :
    ∃ msgs2,
      NetCall.completion2 msgs2 ∈ (get_nvidia_responseT envC4 (strL "weather in Paris")).2 ∧
      msgs2 = secondCallMsgs (strL "weather in Paris") tcW
        (get_weather envC4.weather
          ((dictGet [(strL "location", strL "Paris")] (strL "location")).getD [])) ∧
      PyMessage.tool tcW.id
        (get_weather envC4.weather
          ((dictGet [(strL "location", strL "Paris")] (strL "location")).getD [])) ∈ msgs2 :=
  C4_tool_roundtrip envC4 (strL "weather in Paris") (strL "k") ⟨none, [tcW]⟩ tcW []
    [(strL "location", strL "Paris")] rfl rfl rfl rfl rfl rfl

/-- C5: `get_weather`'s return value is a tagged union: either a report
formatted from a 200 response carrying all five fields, or one of the
enumerated failure strings; and a 200 response with a missing field (in
either branch) yields the failure string of the generic handler, never a
partially populated report. -/
theorem C5_tagged_union :
    (∀ (env : WeatherEnv) (city : List Char),
        isWeatherReport env city (get_weather env city) ∨
        isWeatherFailureMsg city (get_weather env city))
    ∧ (∀ (env : WeatherEnv) (city key e : List Char) (b : WeatherFields),
        env.weatherKey = some key → key.isEmpty = false →
        env.byName = WResp.ok b → fieldsOf b = PyResult.exn e →
        get_weather env city = strL "Error getting weather: " ++ e)
    ∧ (∀ (env : WeatherEnv) (city key e : List Char) (coord : GeoCoord) (b : WeatherFields),
        env.weatherKey = some key → key.isEmpty = false →
        env.byName = WResp.notFound → get_coordinates env city = some coord →
        env.byCoord = WResp.ok b → fieldsOf b = PyResult.exn e →
        get_weather env city = strL "Error getting weather: " ++ e) := by
  refine ⟨fun env city => ?_, fun env city key e b hkey hne hname hfb => ?_,
    fun env city key e coord b hkey hne hname hgeo hcoord hfb => ?_⟩
  · obtain ⟨wk, bn, geo, bc⟩ := env
    cases wk with
    | none => exact Or.inr (Or.inl rfl)
    | some key =>
      cases hk : key.isEmpty with
      | true =>
        right; right; left
        simp [get_weather, get_weatherT, hk]
      | false =>
        cases bn with
        | ok body =>
          cases hfb : fieldsOf body with
          | ok tup =>
            obtain ⟨t, f, h, d, w⟩ := tup
            left; left
            refine ⟨t, f, h, d, w, congrArg WResp.ok ((fieldsOf_ok_iff body t f h d w).1 hfb), ?_⟩
            simp [get_weather, get_weatherT, hk, weatherFromBody, hfb, pyStrip_weather_raw]
          | exn e =>
            right; right; right; left
            exact ⟨e, by simp [get_weather, get_weatherT, hk, weatherFromBody, hfb]⟩
        | notFound =>
          cases hco : get_coordinates ⟨some key, WResp.notFound, geo, bc⟩ city with
          | none =>
            right
            simp [get_weather, get_weatherT, hk, hco, isWeatherFailureMsg]
          | some coord =>
            cases bc with
            | ok body =>
              cases hfb : fieldsOf body with
              | ok tup =>
                obtain ⟨t, f, h, d, w⟩ := tup
                left; right
                refine ⟨coord, t, f, h, d, w, rfl, ?_, ?_, ?_⟩
                · exact hco
                · exact congrArg WResp.ok ((fieldsOf_ok_iff body t f h d w).1 hfb)
                · simp [get_weather, get_weatherT, hk, hco, weatherFromBody, hfb,
                    pyStrip_weather_raw]
              | exn e =>
                right; right; right; left
                exact ⟨e, by simp [get_weather, get_weatherT, hk, hco, weatherFromBody, hfb]⟩
            | notFound =>
              right
              simp [get_weather, get_weatherT, hk, hco, isWeatherFailureMsg]
            | otherStatus code =>
              right
              simp [get_weather, get_weatherT, hk, hco, isWeatherFailureMsg]
            | timeoutExn =>
              right
              simp [get_weather, get_weatherT, hk, hco, isWeatherFailureMsg]
            | reqExn d =>
              right
              simp [get_weather, get_weatherT, hk, hco, isWeatherFailureMsg]
            | otherExn d =>
              right
              simp [get_weather, get_weatherT, hk, hco, isWeatherFailureMsg]
        | otherStatus code =>
          right
          simp [get_weather, get_weatherT, hk, isWeatherFailureMsg]
        | timeoutExn =>
          right
          simp [get_weather, get_weatherT, hk, isWeatherFailureMsg]
        | reqExn d =>
          right
          simp [get_weather, get_weatherT, hk, isWeatherFailureMsg]
        | otherExn d =>
          right
          simp [get_weather, get_weatherT, hk, isWeatherFailureMsg]
  · unfold get_weather get_weatherT
    rw [hkey, hname]
    simp [hne, weatherFromBody, hfb]
  · unfold get_weather get_weatherT
    rw [hkey, hname, hgeo, hcoord]
    simp [hne, weatherFromBody, hfb]

/-- C6 (amended): `get_nvidia_response` is total over every collaborator
behaviour — every raised exception is converted to a classified string — and
the only value it can return that is not a string is the forwarded `None`
content of a completion response's message. -/
theorem C6_total (env : NvidiaEnv) (msg : List Char) :
    (∃ s, get_nvidia_response env msg = some s) ∨
    (get_nvidia_response env msg = none ∧
      ∃ m : ChatMsg, env.firstResp = PyResult.ok m ∧
        (m.content = none ∨ ∃ msgs, env.secondResp msgs = PyResult.ok none)) := by
  obtain ⟨nk, fr, wenv, sr⟩ := env
  cases nk with
  | none => exact Or.inl ⟨_, rfl⟩
  | some key =>
    cases hk : key.isEmpty with
    | true => left; simp [get_nvidia_response, get_nvidia_responseT, hk]
    | false =>
      cases fr with
      | exn e => left; simp [get_nvidia_response, get_nvidia_responseT, hk]
      | ok m =>
        cases htc : m.tool_calls with
        | nil =>
          cases hc : m.content with
          | none =>
            right
            exact ⟨by simp [get_nvidia_response, get_nvidia_responseT, hk, htc, hc],
              m, rfl, Or.inl hc⟩
          | some s =>
            left; simp [get_nvidia_response, get_nvidia_responseT, hk, htc, hc]
        | cons tc rest =>
          cases hargs : tc.function.arguments with
          | exn e =>
            left; simp [get_nvidia_response, get_nvidia_responseT, hk, htc, hargs]
          | ok args =>
            by_cases hname : tc.function.name = strL "get_weather"
            · cases h2 : sr (secondCallMsgs msg tc
                  ((get_weatherT wenv ((dictGet args (strL "location")).getD [])).1)) with
              | exn e =>
                left
                simp [get_nvidia_response, get_nvidia_responseT, hk, htc, hargs, hname, h2]
              | ok content =>
                cases content with
                | none =>
                  right
                  refine ⟨by simp [get_nvidia_response, get_nvidia_responseT, hk, htc, hargs,
                    hname, h2], m, rfl, Or.inr ⟨_, h2⟩⟩
                | some s =>
                  left
                  simp [get_nvidia_response, get_nvidia_responseT, hk, htc, hargs, hname, h2]
            · cases hc : m.content with
              | none =>
                right
                exact ⟨by simp [get_nvidia_response, get_nvidia_responseT, hk, htc, hargs,
                  hname, hc], m, rfl, Or.inl hc⟩
              | some s =>
                left
                simp [get_nvidia_response, get_nvidia_responseT, hk, htc, hargs, hname, hc]

/-- Counterexample for C6 as stated: when the model's first response carries a
non-weather tool call and a `None` content, the core returns Python `None`,
not a string. -/
theorem C6_counterexample :
    get_nvidia_response envC6 (strL "hello") = none := by
  rfl

/-- C7: an exception of the first completion call whose detail matches none
of the classified tokens yields the generic message holding at most the first
150 characters of the raw detail. -/
theorem C7_error_truncation (env : NvidiaEnv) (msg key e : List Char)
    (hkey : env.nvidiaKey = some key) (hne : key.isEmpty = false)
    (hresp : env.firstResp = PyResult.exn e)
    (h401 : isSubstring (strL "401") (pyLower e) = false)
    (hunauth : isSubstring (strL "unauthorized") (pyLower e) = false)
    (h404 : isSubstring (strL "404") (pyLower e) = false)
    (hnf : isSubstring (strL "not found") (pyLower e) = false)
    (hrl : isSubstring (strL "rate limit") (pyLower e) = false)
    (h429 : isSubstring (strL "429") e = false)
    (hto : isSubstring (strL "timeout") (pyLower e) = false) :
    get_nvidia_response env msg =
      some (strL "❌ Error: " ++ e.take 150 ++
        strL ". Please check your API key and internet connection.")
    ∧ (e.take 150).length ≤ 150 := by
  refine ⟨?_, List.length_take_le 150 e⟩
  simp [get_nvidia_response, get_nvidia_responseT, hkey, hresp, hne, classifyError,
    h401, hunauth, h404, hnf, hrl, h429, hto]

/-- Witness for C7 at an unclassified error whose detail is 800 characters
long. -/
theorem C7_error_truncation_witness :
    get_nvidia_response envC7 (strL "hello") =
      some (strL "❌ Error: " ++ (List.replicate 800 'a').take 150 ++
        strL ". Please check your API key and internet connection.")
    ∧ ((List.replicate 800 'a').take 150).length ≤ 150 :=
  C7_error_truncation envC7 (strL "hello") (strL "k") (List.replicate 800 'a')
    rfl rfl rfl (by decide) (by decide) (by decide) (by decide) (by decide) (by decide)
    (by decide)

/-- C8 (amended): an empty NVIDIA credential returns the fixed
missing-credential message with no network call; an absent credential also
returns before any network call, but its message is the substring-classified
"Model not found" rendering of decouple's error. -/
theorem C8_credential_shortcircuit (env : NvidiaEnv) (msg : List Char) :
    (env.nvidiaKey = some [] →
       get_nvidia_responseT env msg =
         (some (strL "⚠️ NVIDIA API key not found. Please add NVIDIA_API_KEY to .env file!"), []))
    ∧ (env.nvidiaKey = none →
       get_nvidia_responseT env msg =
         (some (strL "❌ Model not found. Please check the model name."), [])) := by
  constructor
  · intro h
    unfold get_nvidia_responseT
    rw [h]
    rfl
  · intro h
    unfold get_nvidia_responseT
    rw [h]
    rfl

/-- Counterexample for C8 as stated: with the credential absent the core
makes no network call but returns the "Model not found" classification, not
the fixed missing-credential message. -/
theorem C8_counterexample :
    get_nvidia_responseT envC8 (strL "hello") =
      (some (strL "❌ Model not found. Please check the model name."), []) ∧
    strL "❌ Model not found. Please check the model name." ≠
      strL "⚠️ NVIDIA API key not found. Please add NVIDIA_API_KEY to .env file!" := by
  constructor
  · decide
  · decide

/-- Witness for C8 at the concrete absent-credential environment. -/
theorem C8_credential_witness :
    get_nvidia_responseT envC8 (strL "hey") =
      (some (strL "❌ Model not found. Please check the model name."), []) :=
  (C8_credential_shortcircuit envC8 (strL "hey")).2 rfl

/-- C9 (amended): the condition text of a 200 response is displayed through
Python's `capitalize` — first character upper-cased, the rest lower-cased —
not title-cased. -/
theorem C9_condition_capitalized (env : WeatherEnv) (city key t f h d w : List Char)
    (hkey : env.weatherKey = some key) (hne : key.isEmpty = false)
    (hname : env.byName = WResp.ok ⟨some t, some f, some h, some d, some w⟩) :
    get_weather env city = weatherBody city t f h (pyCapitalize d) w := by
  unfold get_weather get_weatherT
  rw [hkey, hname]
  simp [hne, weatherFromBody, fieldsOf, pyStrip_weather_raw]

/-- Counterexample for C9 as stated: a "light rain" condition is displayed as
"Light rain", and the title-cased "Light Rain" appears nowhere in the output.
-/
theorem C9_counterexample :
    isSubstring (strL "- Condition: Light rain") (get_weather envC9 (strL "Paris")) = true ∧
    isSubstring (strL "Light Rain") (get_weather envC9 (strL "Paris")) = false := by
  constructor
  · decide
  · decide

/-- Witness for C9 at the concrete "light rain" environment. -/
theorem C9_condition_witness :
    get_weather envC9 (strL "Paris") =
      weatherBody (strL "Paris") (strL "25") (strL "26") (strL "60")
        (pyCapitalize (strL "light rain")) (strL "3") :=
  C9_condition_capitalized envC9 (strL "Paris") (strL "k") (strL "25") (strL "26")
    (strL "60") (strL "light rain") (strL "3") rfl rfl rfl

/-- C10 (amended): only the first tool call of the first response is
examined — replacing the tool-call list by its first element alone changes
nothing — and when that call names a tool other than `get_weather` and its
arguments parse, the core returns the first message's content directly with
no weather fetch and no second completion call. -/
theorem C10_first_tool_call (env : NvidiaEnv) (msg key : List Char) (m : ChatMsg)
    (tc : ToolCall) (rest : List ToolCall)
    (hkey : env.nvidiaKey = some key) (hne : key.isEmpty = false)
    (hresp : env.firstResp = PyResult.ok m) (htc : m.tool_calls = tc :: rest) :
    get_nvidia_responseT env msg =
      get_nvidia_responseT
        { env with firstResp := PyResult.ok { m with tool_calls := [tc] } } msg
    ∧ ∀ args, tc.function.arguments = PyResult.ok args →
        tc.function.name ≠ strL "get_weather" →
        get_nvidia_responseT env msg = (m.content, [NetCall.completion1 (firstCallMsgs msg)]) := by
  constructor
  · simp only [get_nvidia_responseT, hkey, hresp, htc]
  · intro args hargs hname
    simp only [get_nvidia_responseT, hkey, hresp, htc, hargs, hne, hname,
      Bool.false_eq_true, if_false, ite_false, reduceIte]

/-- Counterexample for C10 as stated: a non-weather first tool call whose
arguments are invalid JSON makes the core return the classified error, not
the first message's content. -/
theorem C10_counterexample :
    get_nvidia_response envC10 (strL "what time is it in Paris") =
      some (strL "❌ Error: Expecting value: line 1 column 1 (char 0). Please check your API key and internet connection.") ∧
    get_nvidia_response envC10 (strL "what time is it in Paris") ≠ some (strL "direct answer") := by
  constructor
  · rfl
  · decide

/-- Witness for C10 at an environment with two tool calls whose first is not
`get_weather`. -/
theorem C10_first_tool_call_witness :
    get_nvidia_responseT envC10b (strL "hi") =
      (some (strL "sure"), [NetCall.completion1 (firstCallMsgs (strL "hi"))]) :=
  (C10_first_tool_call envC10b (strL "hi") (strL "k") ⟨some (strL "sure"), [tcOther, tcExtra]⟩
    tcOther [tcExtra] rfl rfl rfl rfl).2 [] rfl (by decide)

end Chatbot
